import Mathlib

/-!
Verification development for the viwo diffusers server
(`server/main.py` and `server/controlnet.py`).

The Python service is translated as a shallow embedding: the four
process-lifetime caches become association lists inside a `ServerState`
record, Python exceptions become an `Err` sum (distinguishing `ValueError`
from every other exception, which is the only distinction the HTTP layer
makes), and every call into the external ML ecosystem (diffusers,
controlnet_aux, torch) is a field of an `Ext` oracle record, since the
spec treats those components as opaque. PIL images are modelled by `Img`
(grayscale or RGB pixel grids); PNG serialization plus base64 transport
is modelled concretely so that the encode/decode round trip is provable.
-/

deriving instance DecidableEq for Except

/-- Python exceptions as seen by the HTTP layer: `ValueError` (mapped to
HTTP 400 by the controlnet endpoints) versus every other exception
(mapped to HTTP 500). The payload is the exception text `str(error)`. -/
inductive Err where
  | valueError (msg : String)
  | other (msg : String)
deriving DecidableEq, Repr

/-- Exception text, i.e. Python `str(error)`. -/
def Err.msg : Err → String
  | .valueError m => m
  | .other m => m

/-- Opaque preprocessing detectors from `controlnet_aux`. -/
inductive Detector where
  | canny
  | midas
  | hed
  | openpose
deriving DecidableEq, Repr

/-- The four diffusers pipeline classes dispatched on in `load_pipeline`. -/
inductive Family where
  | flux
  | sd3
  | sdxl
  | sd15
deriving DecidableEq, Repr

/-- An opaque diffusers pipeline: the class it was constructed from and the
model identifier it was loaded for. -/
structure Pipeline where
  family : Family
  model_id : String
deriving DecidableEq, Repr

/-- An opaque `ControlNetModel`, tagged by the hub identifier it was loaded
from. -/
structure CNModel where
  model_id : String
deriving DecidableEq, Repr

/-- An opaque `StableDiffusionControlNetPipeline`, tagged by its base model
and the `ControlNetModel` it wraps. -/
structure CNPipeline where
  base_model : String
  controlnet : CNModel
deriving DecidableEq, Repr

/-- A PIL image: a grayscale (mode `L`) or RGB pixel grid, row-major.
Pixel channels are naturals; well-formed images keep them below 256. -/
inductive Img where
  | gray (rows : List (List Nat))
  | rgb (rows : List (List (Nat × Nat × Nat)))
deriving DecidableEq, Repr

/-- Image height: the number of pixel rows. -/
def Img.height : Img → Nat
  | .gray rows => rows.length
  | .rgb rows => rows.length

/-- Image width: the length of the first pixel row (0 for an empty image). -/
def Img.width : Img → Nat
  | .gray rows => (rows.head?.map List.length).getD 0
  | .rgb rows => (rows.head?.map List.length).getD 0

/-- PIL's RGB→L conversion of one pixel (the ITU-R 601-2 luma transform as
implemented in PIL: `(r*19595 + g*38470 + b*7471) >> 16`). -/
def l24 (p : Nat × Nat × Nat) : Nat :=
  (p.1 * 19595 + p.2.1 * 38470 + p.2.2 * 7471) / 65536

/-- Translation of `np.array(image.convert("L"))`: the grayscale pixel grid of an image.
On a mode-`L` image the conversion is the identity. -/
def convertL : Img → List (List Nat)
  | .gray rows => rows
  | .rgb rows => rows.map (fun row => row.map l24)

/-- The scribble branch of `ControlNetManager.preprocess`
(`Image.fromarray(255 - np.array(image.convert("L")))`): grayscale
conversion followed by pointwise uint8 inversion. -/
def scribblePreprocess (image : Img) : Img :=
  Img.gray ((convertL image).map (fun row => row.map (fun v => 255 - v)))

/-- Lookup in a Python dict modelled as an association list. -/
def alookup {α : Type} : List (String × α) → String → Option α
  | [], _ => none
  | (k, v) :: rest, key => if key = k then some v else alookup rest key

/-- The five control types accepted by the server. -/
def validControlTypes : List String := ["canny", "depth", "hed", "openpose", "scribble"]

/-- One entry of the `/controlnet/types` response. -/
structure ControlTypeInfo where
  type : String
  label : String
  description : String
deriving DecidableEq, Repr

/-- Translation of `ControlNetManager.get_available_types`: the fixed metadata list. -/
def get_available_types : List ControlTypeInfo :=
  [ { type := "canny", label := "Canny Edge",
      description := "Edge detection using Canny algorithm" },
    { type := "depth", label := "Depth Map",
      description := "Depth estimation using MiDaS" },
    { type := "hed", label := "HED Boundary",
      description := "Holistically-nested edge detection" },
    { type := "openpose", label := "OpenPose",
      description := "Human pose estimation" },
    { type := "scribble", label := "Scribble",
      description := "Hand-drawn scribble guidance" } ]

/-- The keyword arguments `text_to_image` forwards to the pipeline call.
Optional Python kwargs are `Option` fields: `none` means the key is absent
from the call. `generator` records the seed given to `torch.Generator`. -/
structure T2IKwargs where
  prompt : String
  num_inference_steps : Int
  guidance_scale : Rat
  generator : Option Int
  width : Option Int
  height : Option Int
  negative_prompt : Option String
deriving DecidableEq, Repr

/-- The keyword arguments `ControlNetManager.generate` forwards to the
ControlNet pipeline call. -/
structure CNKwargs where
  prompt : String
  image : Img
  num_inference_steps : Int
  guidance_scale : Rat
  controlnet_conditioning_scale : Rat
  generator : Option Int
  width : Option Int
  height : Option Int
  negative_prompt : Option String
deriving DecidableEq, Repr

/-- One element of a pipeline result batch (`result.images` or the result
tuple): a PIL image, or any other object — the negative case of the
`isinstance(image, Image.Image)` check. -/
inductive PipeItem where
  | image (i : Img)
  | nonImage
deriving DecidableEq, Repr

/-- The opaque external ML ecosystem (diffusers, controlnet_aux, torch).
Each field models one kind of call the server makes; an `Except.error`
result models the library raising a (non-`ValueError`) exception whose
text is the payload. A pipeline invocation that returns normally yields
its result batch, whose elements need not be PIL images. -/
structure ExtLib where
  midasLoad : Except String Unit
  hedLoad : Except String Unit
  openposeLoad : Except String Unit
  detApply : Detector → Img → Except String Img
  cnLoad : String → Except String Unit
  cnPipeLoad : String → CNModel → Except String Unit
  t2iLoad : Family → String → Except String Unit
  runPipe : Pipeline → T2IKwargs → Except String (List PipeItem)
  runCNPipe : CNPipeline → CNKwargs → Except String (List PipeItem)

/-- Translation of the result extraction shared by `text_to_image` and
`ControlNetManager.generate`: take `result.images[0]` (or `result[0]`),
raising `IndexError` on an empty batch and
`ValueError("Expected PIL Image from pipeline")` when the first element
is not a PIL image. -/
def extractImage : List PipeItem → Except Err Img
  | [] => .error (.other "list index out of range")
  | .image i :: _ => .ok i
  | .nonImage :: _ => .error (.valueError "Expected PIL Image from pipeline")

/-- The whole mutable state of the server process: `pipeline_cache` from
`main.py` plus the three caches of the `ControlNetManager` instance. -/
structure ServerState where
  pipeline_cache : List (String × Pipeline)
  models : List (String × CNModel)
  pipelines : List (String × CNPipeline)
  preprocessors : List (String × Option Detector)
deriving DecidableEq, Repr

/-- The state at process start: all four caches empty. -/
def initialState : ServerState :=
  { pipeline_cache := [], models := [], pipelines := [], preprocessors := [] }

/-- Boolean list-prefix test on characters. -/
def prefixOf : List Char → List Char → Bool
  | [], _ => true
  | _ :: _, [] => false
  | a :: as, b :: bs => a = b && prefixOf as bs

/-- Boolean substring test on character lists, scanning every suffix. -/
def infixOf (needle : List Char) : List Char → Bool
  | [] => prefixOf needle []
  | c :: rest => prefixOf needle (c :: rest) || infixOf needle rest

/-- Python's `needle in hay` substring containment on strings. -/
def strContains (hay needle : String) : Bool :=
  infixOf needle.data hay.data

/-- Python's `s.lower()` (agreeing on the ASCII identifiers used here):
lower-case every character. -/
def strLower (s : String) : String := String.mk (s.data.map Char.toLower)

/-- The constructor chain of `ControlNetManager._get_preprocessor`:
`CannyDetector()` for canny, `from_pretrained` detectors for depth, hed
and openpose, `None` for scribble (no preprocessing needed), and a raised
`ValueError` for every other type. -/
def mkPreprocessor (ext : ExtLib) (control_type : String) :
    Except Err (Option Detector) :=
  if control_type = "canny" then .ok (some .canny)
  else if control_type = "depth" then
    match ext.midasLoad with
    | .ok _ => .ok (some .midas)
    | .error m => .error (.other m)
  else if control_type = "hed" then
    match ext.hedLoad with
    | .ok _ => .ok (some .hed)
    | .error m => .error (.other m)
  else if control_type = "openpose" then
    match ext.openposeLoad with
    | .ok _ => .ok (some .openpose)
    | .error m => .error (.other m)
  else if control_type = "scribble" then .ok none
  else .error (.valueError ("Unknown control type: " ++ control_type))

/-- Translation of `ControlNetManager._get_preprocessor`: return the cached preprocessor
for `control_type`, creating and caching it on first use; the state is
returned as it stands when the call returns or raises. -/
def get_preprocessor (ext : ExtLib) (st : ServerState) (control_type : String) :
    ServerState × Except Err (Option Detector) :=
  match alookup st.preprocessors control_type with
  | some p => (st, .ok p)
  | none =>
    match mkPreprocessor ext control_type with
    | .error e => (st, .error e)
    | .ok p => ({ st with preprocessors := st.preprocessors ++ [(control_type, p)] }, .ok p)

/-- Translation of `ControlNetManager.preprocess`: scribble is inverted grayscale with no
preprocessor involved; every other type fetches its preprocessor and
applies it (the numpy array marshaling around the canny detector is
absorbed into the opaque detector application). Calling the `None`
preprocessor would raise a `TypeError`, modelled as a generic exception. -/
def preprocess (ext : ExtLib) (st : ServerState) (image : Img)
    (control_type : String) : ServerState × Except Err Img :=
  if control_type = "scribble" then
    (st, .ok (scribblePreprocess image))
  else
    match get_preprocessor ext st control_type with
    | (st', .error e) => (st', .error e)
    | (st', .ok (some d)) =>
      match ext.detApply d image with
      | .ok out => (st', .ok out)
      | .error m => (st', .error (.other m))
    | (st', .ok none) =>
      (st', .error (.other "NoneType object is not callable"))

/-- The literal `model_map` dict of `ControlNetManager.load_controlnet`. -/
def model_map : List (String × String) :=
  [ ("canny", "lllyasviel/sd-controlnet-canny"),
    ("depth", "lllyasviel/sd-controlnet-depth"),
    ("hed", "lllyasviel/sd-controlnet-hed"),
    ("openpose", "lllyasviel/sd-controlnet-openpose"),
    ("scribble", "lllyasviel/sd-controlnet-scribble") ]

/-- Translation of `ControlNetManager.load_controlnet`: return the cached `ControlNetModel`
for `control_type`, loading and caching it on first use; unknown types
raise `ValueError` before anything is inserted. -/
def load_controlnet (ext : ExtLib) (st : ServerState) (control_type : String) :
    ServerState × Except Err CNModel :=
  match alookup st.models control_type with
  | some m => (st, .ok m)
  | none =>
    match alookup model_map control_type with
    | none => (st, .error (.valueError ("Unknown control type: " ++ control_type)))
    | some model_id =>
      match ext.cnLoad model_id with
      | .error m => (st, .error (.other m))
      | .ok _ =>
        let model : CNModel := ⟨model_id⟩
        ({ st with models := st.models ++ [(control_type, model)] }, .ok model)

/-- The kwargs dict built by `ControlNetManager.generate`: mandatory keys
always present, `width`/`height`/`negative_prompt` added only when not
`None`, the seed threaded through `generator`. -/
def buildCNKwargs (prompt : String) (control_image : Img) (strength : Rat)
    (width height : Option Int) (num_inference_steps : Int)
    (guidance_scale : Rat) (negative_prompt : Option String)
    (seed : Option Int) : CNKwargs :=
  { prompt := prompt
    image := control_image
    num_inference_steps := num_inference_steps
    guidance_scale := guidance_scale
    controlnet_conditioning_scale := strength
    generator := seed
    width := width
    height := height
    negative_prompt := negative_prompt }

/-- The tail of `ControlNetManager.generate` after the pipeline is in hand:
call the pipeline with the built kwargs (library failures pass through as
generic exceptions), then extract the first image of the result batch —
which raises `ValueError("Expected PIL Image from pipeline")` when that
element is not a PIL image (controlnet.py lines 234-240). -/
def runCN (ext : ExtLib) (st2 : ServerState) (pipeline : CNPipeline)
    (kwargs : CNKwargs) : ServerState × Except Err Img :=
  match ext.runCNPipe pipeline kwargs with
  | .error m => (st2, .error (.other m))
  | .ok result =>
    match extractImage result with
    | .error e => (st2, .error e)
    | .ok image => (st2, .ok image)

/-- Translation of `ControlNetManager.generate`: load the ControlNet model, look up or
create the pipeline cached under the key `f"{base_model}:{control_type}"`,
then call it with the built kwargs. -/
def generate (ext : ExtLib) (st : ServerState) (prompt : String)
    (control_image : Img) (control_type : String) (base_model : String)
    (strength : Rat) (width height : Option Int) (num_inference_steps : Int)
    (guidance_scale : Rat) (negative_prompt : Option String)
    (seed : Option Int) : ServerState × Except Err Img :=
  match load_controlnet ext st control_type with
  | (st1, .error e) => (st1, .error e)
  | (st1, .ok controlnet) =>
    let pipeline_key := base_model ++ ":" ++ control_type
    let kwargs := buildCNKwargs prompt control_image strength width height
      num_inference_steps guidance_scale negative_prompt seed
    match alookup st1.pipelines pipeline_key with
    | some pipeline => runCN ext st1 pipeline kwargs
    | none =>
      match ext.cnPipeLoad base_model controlnet with
      | .error m => (st1, .error (.other m))
      | .ok _ =>
        let p : CNPipeline := ⟨base_model, controlnet⟩
        runCN ext { st1 with pipelines := st1.pipelines ++ [(pipeline_key, p)] }
          p kwargs

/-- The `if`/`elif` chain of `load_pipeline` choosing the pipeline class:
case-insensitive substring match on `model_id`, flux first, then
sd3 / stable-diffusion-3, then xl, defaulting to the SD 1.5 class. -/
def selectFamily (model_id : String) : Family :=
  if strContains (strLower model_id) "flux" then .flux
  else if strContains (strLower model_id) "sd3"
      || strContains (strLower model_id) "stable-diffusion-3" then .sd3
  else if strContains (strLower model_id) "xl" then .sdxl
  else .sd15

/-- Translation of `load_pipeline` from `main.py`: return the cached pipeline for
`model_id`, otherwise pick the pipeline class by `selectFamily`, load it,
cache it. The `List String` component is the log:
`print(f"Loading model: ...")` runs exactly when a load happens. -/
def load_pipeline (ext : ExtLib) (st : ServerState) (model_id : String) :
    ServerState × List String × Except Err Pipeline :=
  match alookup st.pipeline_cache model_id with
  | some p => (st, [], .ok p)
  | none =>
    let log := ["Loading model: " ++ model_id]
    let family : Family := selectFamily model_id
    match ext.t2iLoad family model_id with
    | .error m => (st, log, .error (.other m))
    | .ok _ =>
      let pipeline : Pipeline := ⟨family, model_id⟩
      ({ st with pipeline_cache := st.pipeline_cache ++ [(model_id, pipeline)] },
        log, .ok pipeline)

/-- The base64 alphabet of RFC 4648, as used by Python's `base64` module. -/
def b64Chars : List Char :=
  "ABCDEFGHIJKLMNOPQRSTUVWXYZabcdefghijklmnopqrstuvwxyz0123456789+/".data

/-- Character for a six-bit group. -/
def sextetChar (n : Nat) : Char := b64Chars.getD n 'A'

/-- Six-bit value of an alphabet character; `none` off the alphabet. -/
def charSextet (c : Char) : Option Nat := b64Chars.findIdx? (fun x => x = c)

/-- Translation of `base64.b64encode` on a byte list: three bytes per four characters,
`=`-padded at the end. -/
def b64encode : List Nat → List Char
  | [] => []
  | [b1] =>
    [sextetChar (b1 / 4), sextetChar (b1 % 4 * 16), '=', '=']
  | [b1, b2] =>
    [sextetChar (b1 / 4), sextetChar (b1 % 4 * 16 + b2 / 16),
     sextetChar (b2 % 16 * 4), '=']
  | b1 :: b2 :: b3 :: rest =>
    sextetChar (b1 / 4) :: sextetChar (b1 % 4 * 16 + b2 / 16) ::
      sextetChar (b2 % 16 * 4 + b3 / 64) :: sextetChar (b3 % 64) :: b64encode rest

/-- Translation of `base64.b64decode`: four characters per three bytes, `=`-padding only
at the very end; `none` models the `binascii.Error` (a `ValueError`)
raised on malformed input. -/
def b64decode : List Char → Option (List Nat)
  | [] => some []
  | c1 :: c2 :: c3 :: c4 :: rest =>
    match charSextet c1, charSextet c2 with
    | some s1, some s2 =>
      if c3 = '=' then
        if c4 = '=' ∧ rest = [] then some [s1 * 4 + s2 / 16] else none
      else
        match charSextet c3 with
        | some s3 =>
          if c4 = '=' then
            if rest = [] then some [s1 * 4 + s2 / 16, s2 % 16 * 16 + s3 / 4]
            else none
          else
            match charSextet c4, b64decode rest with
            | some s4, some tail =>
              some ((s1 * 4 + s2 / 16) :: (s2 % 16 * 16 + s3 / 4)
                :: (s3 % 4 * 64 + s4) :: tail)
            | _, _ => none
        | none => none
    | _, _ => none
  | _ => none

/-- Big-endian four-byte encoding of a natural (as in a PNG IHDR chunk). -/
def be32 (n : Nat) : List Nat :=
  [n / 16777216 % 256, n / 65536 % 256, n / 256 % 256, n % 256]

/-- PNG colour-type byte of the image's mode (0 grayscale, 2 truecolour). -/
def modeByte : Img → Nat
  | .gray _ => 0
  | .rgb _ => 2

/-- Raster bytes of an image, row-major, channels clamped to bytes. -/
def pixelBytes : Img → List Nat
  | .gray rows => (rows.map (fun row => row.map (fun v => v % 256))).flatten
  | .rgb rows =>
    (rows.map (fun row =>
      (row.map (fun p => [p.1 % 256, p.2.1 % 256, p.2.2 % 256])).flatten)).flatten

/-- Modelled from the spec: `img.save(buffered, format="PNG")` of PIL, which
is not part of this repository. PNG is modelled as a lossless container:
four-byte big-endian width and height (as in IHDR), a colour-type byte,
then the raster bytes. -/
def pngEncode (img : Img) : List Nat :=
  be32 img.width ++ be32 img.height ++ [modeByte img] ++ pixelBytes img

/-- Truncate or zero-pad a byte list to an exact length. -/
def padTo (n : Nat) (l : List Nat) : List Nat :=
  l.take n ++ List.replicate (n - (l.take n).length) 0

/-- Group a byte list into triples, dropping a ragged tail. -/
def chunk3 : List Nat → List (Nat × Nat × Nat)
  | a :: b :: c :: rest => (a, b, c) :: chunk3 rest
  | _ => []

/-- Grayscale raster rows of a `w × h` image from a byte stream. -/
def buildGrayRows (w : Nat) : Nat → List Nat → List (List Nat)
  | 0, _ => []
  | h + 1, vals => padTo w vals :: buildGrayRows w h (vals.drop w)

/-- RGB raster rows of a `w × h` image from a byte stream. -/
def buildRgbRows (w : Nat) : Nat → List Nat → List (List (Nat × Nat × Nat))
  | 0, _ => []
  | h + 1, vals => chunk3 (padTo (3 * w) vals) :: buildRgbRows w h (vals.drop (3 * w))

/-- Read one big-endian four-byte natural off a byte stream. -/
def parseBe32 : List Nat → Option (Nat × List Nat)
  | a :: b :: c :: d :: rest => some (a * 16777216 + b * 65536 + c * 256 + d, rest)
  | _ => none

/-- Modelled from the spec: `Image.open` of PIL on PNG bytes, which is not
part of this repository; inverse of `pngEncode`, `none` modelling the
(non-`ValueError`) `UnidentifiedImageError` on undecodable bytes. -/
def pngDecode (bs : List Nat) : Option Img :=
  match parseBe32 bs with
  | none => none
  | some (w, rest1) =>
    match parseBe32 rest1 with
    | none => none
    | some (h, rest2) =>
      match rest2 with
      | [] => none
      | m :: pix =>
        if m = 0 then some (Img.gray (buildGrayRows w h pix))
        else if m = 2 then some (Img.rgb (buildRgbRows w h pix))
        else none

/-- Translation of `image_to_base64` from `main.py`: PNG-serialize, then base64. -/
def image_to_base64 (img : Img) : String :=
  String.mk (b64encode (pngEncode img))

/-- Translation of `base64_to_image` from `main.py`: base64-decode (a failure there is a
`binascii.Error`, hence a `ValueError`), then open the PNG (a failure
there is not a `ValueError`). -/
def base64_to_image (b64 : String) : Except Err Img :=
  match b64decode b64.data with
  | none => .error (.valueError "Invalid base64-encoded string")
  | some bytes =>
    match pngDecode bytes with
    | none => .error (.other "cannot identify image file")
    | some img => .ok img

/-- The `TextToImageRequest` pydantic model after validation: defaults
already applied. -/
structure TextToImageRequest where
  model_id : String
  prompt : String
  width : Option Int
  height : Option Int
  num_inference_steps : Int
  guidance_scale : Rat
  negative_prompt : Option String
  seed : Option Int
deriving DecidableEq, Repr

/-- A `/text-to-image` request body as it arrives on the wire: every field
with a pydantic default may be omitted (`none`). -/
structure TextToImageJson where
  model_id : String
  prompt : String
  width : Option Int
  height : Option Int
  num_inference_steps : Option Int
  guidance_scale : Option Rat
  negative_prompt : Option String
  seed : Option Int
deriving DecidableEq, Repr

/-- Pydantic validation of `TextToImageRequest`: omitted fields take the
declared defaults (`num_inference_steps=50`, `guidance_scale=7.5`, the
rest `None`). -/
def TextToImageRequest.ofJson (j : TextToImageJson) : TextToImageRequest :=
  { model_id := j.model_id
    prompt := j.prompt
    width := j.width
    height := j.height
    num_inference_steps := j.num_inference_steps.getD 50
    guidance_scale := j.guidance_scale.getD 7.5
    negative_prompt := j.negative_prompt
    seed := j.seed }

/-- The `ControlNetPreprocessRequest` pydantic model. -/
structure ControlNetPreprocessRequest where
  image : String
  type : String
deriving DecidableEq, Repr

/-- The `ControlNetGenerateRequest` pydantic model after validation. -/
structure ControlNetGenerateRequest where
  prompt : String
  control_image : String
  type : String
  model_id : String
  strength : Rat
  width : Option Int
  height : Option Int
  num_inference_steps : Int
  guidance_scale : Rat
  negative_prompt : Option String
  seed : Option Int
deriving DecidableEq, Repr

/-- A `/controlnet/generate` request body as it arrives on the wire. -/
structure ControlNetGenerateJson where
  prompt : String
  control_image : String
  type : String
  model_id : Option String
  strength : Option Rat
  width : Option Int
  height : Option Int
  num_inference_steps : Option Int
  guidance_scale : Option Rat
  negative_prompt : Option String
  seed : Option Int
deriving DecidableEq, Repr

/-- Pydantic validation of `ControlNetGenerateRequest`: omitted fields take
the declared defaults (`model_id="runwayml/stable-diffusion-v1-5"`,
`strength=1.0`, `num_inference_steps=50`, `guidance_scale=7.5`). -/
def ControlNetGenerateRequest.ofJson (j : ControlNetGenerateJson) :
    ControlNetGenerateRequest :=
  { prompt := j.prompt
    control_image := j.control_image
    type := j.type
    model_id := j.model_id.getD "runwayml/stable-diffusion-v1-5"
    strength := j.strength.getD 1
    width := j.width
    height := j.height
    num_inference_steps := j.num_inference_steps.getD 50
    guidance_scale := j.guidance_scale.getD 7.5
    negative_prompt := j.negative_prompt
    seed := j.seed }

/-- The `ImageResponse` pydantic model. -/
structure ImageResponse where
  image : String
  width : Nat
  height : Nat
  format : String
deriving DecidableEq, Repr

/-- Outcome of one HTTP request: a 200 body, or an `HTTPException` with
its status code and `detail` string. -/
inductive HttpOutcome where
  | ok (resp : ImageResponse)
  | httpError (status : Nat) (detail : String)
deriving DecidableEq, Repr

/-- The kwargs dict built by the `text_to_image` handler: mandatory keys
always present, `width`/`height`/`negative_prompt` added only when the
request field is not `None`, the seed threaded through `generator`. -/
def buildT2IKwargs (req : TextToImageRequest) : T2IKwargs :=
  { prompt := req.prompt
    num_inference_steps := req.num_inference_steps
    guidance_scale := req.guidance_scale
    generator := req.seed
    width := req.width
    height := req.height
    negative_prompt := req.negative_prompt }

/-- The `POST /text-to-image` handler: load (or fetch) the pipeline, call
it with the built kwargs and extract the first result image, 200 with the
encoded image on success, 500 with the exception text on any failure
(including the `isinstance` `ValueError` — this endpoint has a single
`except Exception` clause). -/
def text_to_image (ext : ExtLib) (st : ServerState) (req : TextToImageRequest) :
    HttpOutcome × ServerState :=
  match load_pipeline ext st req.model_id with
  | (st', _, .error e) => (.httpError 500 ("Generation failed: " ++ e.msg), st')
  | (st', _, .ok pipeline) =>
    match ext.runPipe pipeline (buildT2IKwargs req) with
    | .error m => (.httpError 500 ("Generation failed: " ++ m), st')
    | .ok result =>
      match extractImage result with
      | .error e => (.httpError 500 ("Generation failed: " ++ e.msg), st')
      | .ok image =>
        (.ok { image := image_to_base64 image, width := image.width,
               height := image.height, format := "png" }, st')

/-- The `POST /controlnet/preprocess` handler: decode, preprocess, encode;
a `ValueError` anywhere in the `try` block becomes 400 with detail
`"Invalid control type: " ++ str(error)`, any other exception becomes 500
with detail `"Preprocessing failed: " ++ str(error)`. -/
def controlnet_preprocess (ext : ExtLib) (st : ServerState)
    (req : ControlNetPreprocessRequest) : HttpOutcome × ServerState :=
  match base64_to_image req.image with
  | .error (.valueError m) => (.httpError 400 ("Invalid control type: " ++ m), st)
  | .error (.other m) => (.httpError 500 ("Preprocessing failed: " ++ m), st)
  | .ok input_image =>
    match preprocess ext st input_image req.type with
    | (st', .error (.valueError m)) =>
      (.httpError 400 ("Invalid control type: " ++ m), st')
    | (st', .error (.other m)) =>
      (.httpError 500 ("Preprocessing failed: " ++ m), st')
    | (st', .ok control_image) =>
      (.ok { image := image_to_base64 control_image, width := control_image.width,
             height := control_image.height, format := "png" }, st')

/-- The `POST /controlnet/generate` handler: decode the control image and
run guided generation; a `ValueError` becomes 400 with detail
`"Invalid request: " ++ str(error)`, any other exception becomes 500 with
detail `"Generation failed: " ++ str(error)`. -/
def controlnet_generate (ext : ExtLib) (st : ServerState)
    (req : ControlNetGenerateRequest) : HttpOutcome × ServerState :=
  match base64_to_image req.control_image with
  | .error (.valueError m) => (.httpError 400 ("Invalid request: " ++ m), st)
  | .error (.other m) => (.httpError 500 ("Generation failed: " ++ m), st)
  | .ok control_image =>
    match generate ext st req.prompt control_image req.type req.model_id
        req.strength req.width req.height req.num_inference_steps
        req.guidance_scale req.negative_prompt req.seed with
    | (st', .error (.valueError m)) => (.httpError 400 ("Invalid request: " ++ m), st')
    | (st', .error (.other m)) => (.httpError 500 ("Generation failed: " ++ m), st')
    | (st', .ok result_image) =>
      (.ok { image := image_to_base64 result_image, width := result_image.width,
             height := result_image.height, format := "png" }, st')

/-- The `GET /controlnet/types` handler: reads nothing and writes nothing. -/
def get_controlnet_types (st : ServerState) :
    List ControlTypeInfo × ServerState :=
  (get_available_types, st)

/-- Every entry present in any of the four caches of `st` is still present,
with the same value, in `st'`. -/
def entriesPreserved (st st' : ServerState) : Prop :=
  (∀ k v, alookup st.pipeline_cache k = some v → alookup st'.pipeline_cache k = some v) ∧
  (∀ k v, alookup st.models k = some v → alookup st'.models k = some v) ∧
  (∀ k v, alookup st.pipelines k = some v → alookup st'.pipelines k = some v) ∧
  (∀ k v, alookup st.preprocessors k = some v → alookup st'.preprocessors k = some v)

/-- Each cache holds at most one entry per key. -/
def distinctKeys (st : ServerState) : Prop :=
  (st.pipeline_cache.map Prod.fst).Nodup ∧
  (st.models.map Prod.fst).Nodup ∧
  (st.pipelines.map Prod.fst).Nodup ∧
  (st.preprocessors.map Prod.fst).Nodup

/-- The cache keys the manager can ever create: every key of the
preprocessor and ControlNet-model caches is a valid control type. Holds
at process start and is preserved by every operation. -/
def wfCaches (st : ServerState) : Prop :=
  (∀ k ∈ st.preprocessors.map Prod.fst, k ∈ validControlTypes) ∧
  (∀ k ∈ st.models.map Prod.fst, k ∈ validControlTypes)

/-- An external library run in which no call raises and the pipelines
behave as documented: every load and detector invocation returns
normally, and every pipeline invocation returns a batch whose first
element is a PIL image. -/
def ExtLib.total (ext : ExtLib) : Prop :=
  ext.midasLoad = .ok () ∧ ext.hedLoad = .ok () ∧ ext.openposeLoad = .ok () ∧
  (∀ d i, ∃ o, ext.detApply d i = .ok o) ∧
  (∀ s, ext.cnLoad s = .ok ()) ∧
  (∀ s c, ext.cnPipeLoad s c = .ok ()) ∧
  (∀ f s, ext.t2iLoad f s = .ok ()) ∧
  (∀ p k, ∃ i rest, ext.runPipe p k = .ok (PipeItem.image i :: rest)) ∧
  (∀ p k, ∃ i rest, ext.runCNPipe p k = .ok (PipeItem.image i :: rest))

/-- A concrete external-library run in which every call succeeds and the
pipelines return images. -/
def extOk : ExtLib :=
  { midasLoad := .ok ()
    hedLoad := .ok ()
    openposeLoad := .ok ()
    detApply := fun _ i => .ok i
    cnLoad := fun _ => .ok ()
    cnPipeLoad := fun _ _ => .ok ()
    t2iLoad := fun _ _ => .ok ()
    runPipe := fun _ _ => .ok [PipeItem.image (Img.gray [[0]])]
    runCNPipe := fun _ _ => .ok [PipeItem.image (Img.gray [[0]])] }

/-- A concrete external-library run in which every call returns normally
but the pipelines return a batch whose first element is not a PIL image. -/
def extBadPipe : ExtLib :=
  { midasLoad := .ok ()
    hedLoad := .ok ()
    openposeLoad := .ok ()
    detApply := fun _ i => .ok i
    cnLoad := fun _ => .ok ()
    cnPipeLoad := fun _ _ => .ok ()
    t2iLoad := fun _ _ => .ok ()
    runPipe := fun _ _ => .ok [PipeItem.nonImage]
    runCNPipe := fun _ _ => .ok [PipeItem.nonImage] }

/-- The 400/500 contract of a controlnet endpoint outcome for control type
`ty`: the status is 400 exactly for an unknown control type, every error
status is 400 or 500, and the `detail` field is the endpoint's fixed label
followed by the exception text. -/
def statusSpec (out : HttpOutcome) (ty : String) (tag400 tag500 : String) : Prop :=
  ((∃ d, out = .httpError 400 d) ↔ ty ∉ validControlTypes) ∧
  (∀ s d, out = .httpError s d →
    (s = 400 ∧ d = tag400 ++ ("Unknown control type: " ++ ty)) ∨
    (s = 500 ∧ ∃ m, d = tag500 ++ m))

/-- The 400/500 contract of the generate endpoint outcome for control type
`ty`: an unknown control type always yields 400 with its fixed detail,
every error status is 400 or 500, a 400 arises only from an unknown
control type or from the pipeline returning a non-image first element,
and a 500 detail is the endpoint label followed by the exception text. -/
def statusSpecGen (out : HttpOutcome) (ty : String) : Prop :=
  (ty ∉ validControlTypes →
    out = .httpError 400 ("Invalid request: " ++ ("Unknown control type: " ++ ty))) ∧
  (∀ s d, out = .httpError s d → s = 400 ∨ s = 500) ∧
  (∀ d, out = .httpError 400 d →
    d = "Invalid request: " ++ ("Unknown control type: " ++ ty) ∨
    d = "Invalid request: " ++ "Expected PIL Image from pipeline") ∧
  (∀ d, out = .httpError 500 d → ∃ m, d = "Generation failed: " ++ m)

/-- Appending entries on the right never changes an existing lookup. -/
theorem alookup_append_some {α : Type} {m : List (String × α)} {k : String}
    {v : α} (l : List (String × α)) (h : alookup m k = some v) :
    alookup (m ++ l) k = some v := by
  induction m with
  | nil => simp [alookup] at h
  | cons p rest ih =>
    obtain ⟨k', v'⟩ := p
    by_cases hk : k = k' <;> simp [alookup, hk] at h ⊢
    · exact h
    · exact ih h

/-- Inserting an absent key makes it found. -/
theorem alookup_append_last {α : Type} {m : List (String × α)} {k : String}
    (h : alookup m k = none) (v : α) :
    alookup (m ++ [(k, v)]) k = some v := by
  induction m with
  | nil => simp [alookup]
  | cons p rest ih =>
    obtain ⟨k', v'⟩ := p
    by_cases hk : k = k' <;> simp [alookup, hk] at h ⊢
    exact ih h

/-- A key is unfindable exactly when it is not among the stored keys. -/
theorem alookup_eq_none_iff {α : Type} (m : List (String × α)) (k : String) :
    alookup m k = none ↔ k ∉ m.map Prod.fst := by
  induction m with
  | nil => simp [alookup]
  | cons p rest ih =>
    obtain ⟨k', v'⟩ := p
    by_cases hk : k = k' <;> simp [alookup, hk, ih]

/-- A successful `load_pipeline` leaves its result in the cache. -/
theorem load_pipeline_ok_lookup {ext : ExtLib} {st : ServerState} {m : String}
    {st1 : ServerState} {log : List String} {p : Pipeline}
    (h : load_pipeline ext st m = (st1, log, .ok p)) :
    alookup st1.pipeline_cache m = some p := by
  unfold load_pipeline at h
  cases hl : alookup st.pipeline_cache m with
  | some q =>
    simp [hl] at h
    obtain ⟨h1, _, h3⟩ := h
    rw [← h1, hl, h3]
  | none =>
    simp [hl] at h
    cases ht : ext.t2iLoad (selectFamily m) m with
    | error msg => simp [ht] at h
    | ok u =>
      simp [ht] at h
      obtain ⟨h1, h2, h3⟩ := h
      rw [← h1, ← h3]
      exact alookup_append_last hl _

/-- A cache hit returns the cached pipeline, logs nothing, changes nothing. -/
theorem load_pipeline_hit (ext : ExtLib) {st : ServerState} {m : String}
    {p : Pipeline} (h : alookup st.pipeline_cache m = some p) :
    load_pipeline ext st m = (st, [], .ok p) := by
  unfold load_pipeline
  rw [h]

/-- C2: `GET /controlnet/types` returns exactly the five fixed entries, each
carrying `type`, `label` and `description`, in the stable order canny,
depth, hed, openpose, scribble, for every cache state, and leaves the
state unchanged. -/
theorem controlnet_types_fixed (st : ServerState) :
    (get_controlnet_types st).1 =
      [ ⟨"canny", "Canny Edge", "Edge detection using Canny algorithm"⟩,
        ⟨"depth", "Depth Map", "Depth estimation using MiDaS"⟩,
        ⟨"hed", "HED Boundary", "Holistically-nested edge detection"⟩,
        ⟨"openpose", "OpenPose", "Human pose estimation"⟩,
        ⟨"scribble", "Scribble", "Hand-drawn scribble guidance"⟩ ] ∧
    (get_controlnet_types st).1.length = 5 ∧
    (get_controlnet_types st).1.map ControlTypeInfo.type = validControlTypes ∧
    (get_controlnet_types st).2 = st :=
  ⟨rfl, rfl, rfl, rfl⟩

/-- C3: once a first `load_pipeline` call has populated the cache for a
model identifier, a second call (under any external behaviour) returns the
cached pipeline, performs no load (empty log), and leaves the cache
unchanged. -/
theorem load_pipeline_idempotent (ext ext2 : ExtLib) (st : ServerState)
    (m : String) (st1 : ServerState) (log : List String) (p : Pipeline)
    (h : load_pipeline ext st m = (st1, log, .ok p)) :
    load_pipeline ext2 st1 m = (st1, [], .ok p) :=
  load_pipeline_hit ext2 (load_pipeline_ok_lookup h)

/-- Witness for C3 at a concrete model identifier. -/
theorem load_pipeline_idempotent_witness :
    load_pipeline extOk ⟨[("sd-xl", ⟨Family.sdxl, "sd-xl"⟩)], [], [], []⟩ "sd-xl" =
      (⟨[("sd-xl", ⟨Family.sdxl, "sd-xl"⟩)], [], [], []⟩,
        [], .ok ⟨Family.sdxl, "sd-xl"⟩) :=
  load_pipeline_idempotent extOk extOk initialState "sd-xl" _
    ["Loading model: sd-xl"] _ (by decide)

/-- C4: on a cache miss, the pipeline `load_pipeline` returns is loaded for
the requested `model_id`, and its class follows the case-insensitive
substring precedence: flux first, else sd3 / stable-diffusion-3, else xl,
else the SD 1.5 default. -/
theorem load_pipeline_family_selection (ext : ExtLib) (st : ServerState)
    (m : String) (st' : ServerState) (log : List String) (p : Pipeline)
    (hmiss : alookup st.pipeline_cache m = none)
    (h : load_pipeline ext st m = (st', log, .ok p)) :
    p.model_id = m ∧
    (strContains (strLower m) "flux" = true → p.family = .flux) ∧
    (strContains (strLower m) "flux" = false →
      (strContains (strLower m) "sd3" = true ∨
        strContains (strLower m) "stable-diffusion-3" = true) →
      p.family = .sd3) ∧
    (strContains (strLower m) "flux" = false →
      strContains (strLower m) "sd3" = false →
      strContains (strLower m) "stable-diffusion-3" = false →
      strContains (strLower m) "xl" = true → p.family = .sdxl) ∧
    (strContains (strLower m) "flux" = false →
      strContains (strLower m) "sd3" = false →
      strContains (strLower m) "stable-diffusion-3" = false →
      strContains (strLower m) "xl" = false → p.family = .sd15) := by
  unfold load_pipeline at h
  simp [hmiss] at h
  cases ht : ext.t2iLoad (selectFamily m) m with
  | error msg => simp [ht] at h
  | ok u =>
    simp [ht] at h
    obtain ⟨h1, h2, h3⟩ := h
    subst h3
    refine ⟨rfl, ?_, ?_, ?_, ?_⟩
    · intro hf
      simp [selectFamily, hf]
    · intro hf hsd
      rcases hsd with hs | hs <;> simp [selectFamily, hf, hs]
    · intro hf hs1 hs2 hx
      simp [selectFamily, hf, hs1, hs2, hx]
    · intro hf hs1 hs2 hx
      simp [selectFamily, hf, hs1, hs2, hx]

/-- Witness for C4 at the model identifier `"Flux-Model"`. -/
theorem load_pipeline_family_selection_witness :
    (Pipeline.mk Family.flux "Flux-Model").model_id = "Flux-Model" ∧
    (strContains (strLower "Flux-Model") "flux" = true →
      (Pipeline.mk Family.flux "Flux-Model").family = .flux) ∧
    (strContains (strLower "Flux-Model") "flux" = false →
      (strContains (strLower "Flux-Model") "sd3" = true ∨
        strContains (strLower "Flux-Model") "stable-diffusion-3" = true) →
      (Pipeline.mk Family.flux "Flux-Model").family = .sd3) ∧
    (strContains (strLower "Flux-Model") "flux" = false →
      strContains (strLower "Flux-Model") "sd3" = false →
      strContains (strLower "Flux-Model") "stable-diffusion-3" = false →
      strContains (strLower "Flux-Model") "xl" = true →
      (Pipeline.mk Family.flux "Flux-Model").family = .sdxl) ∧
    (strContains (strLower "Flux-Model") "flux" = false →
      strContains (strLower "Flux-Model") "sd3" = false →
      strContains (strLower "Flux-Model") "stable-diffusion-3" = false →
      strContains (strLower "Flux-Model") "xl" = false →
      (Pipeline.mk Family.flux "Flux-Model").family = .sd15) :=
  load_pipeline_family_selection extOk initialState "Flux-Model"
    ⟨[("Flux-Model", ⟨Family.flux, "Flux-Model"⟩)], [], [], []⟩
    ["Loading model: Flux-Model"] ⟨Family.flux, "Flux-Model"⟩
    (by decide) (by decide)

/-- One server-state transition: existing entries survive unchanged, and
key distinctness survives. -/
def cacheStep (st st' : ServerState) : Prop :=
  entriesPreserved st st' ∧ (distinctKeys st → distinctKeys st')

theorem entriesPreserved_refl (st : ServerState) : entriesPreserved st st :=
  ⟨fun _ _ h => h, fun _ _ h => h, fun _ _ h => h, fun _ _ h => h⟩

theorem cacheStep_refl (st : ServerState) : cacheStep st st :=
  ⟨entriesPreserved_refl st, fun h => h⟩

theorem cacheStep_trans {a b c : ServerState} (h1 : cacheStep a b)
    (h2 : cacheStep b c) : cacheStep a c := by
  obtain ⟨⟨p1, p2, p3, p4⟩, d1⟩ := h1
  obtain ⟨⟨q1, q2, q3, q4⟩, d2⟩ := h2
  exact ⟨⟨fun k v h => q1 k v (p1 k v h), fun k v h => q2 k v (p2 k v h),
    fun k v h => q3 k v (p3 k v h), fun k v h => q4 k v (p4 k v h)⟩,
    fun h => d2 (d1 h)⟩

/-- Inserting an absent key keeps the key list duplicate-free. -/
theorem nodup_insert_keys {α : Type} {m : List (String × α)} {k : String}
    (h : alookup m k = none) (v : α) (hn : (m.map Prod.fst).Nodup) :
    ((m ++ [(k, v)]).map Prod.fst).Nodup := by
  rw [List.map_append, List.nodup_append]
  refine ⟨hn, List.nodup_singleton k, ?_⟩
  intro x hx hx'
  simp at hx'
  subst hx'
  exact (alookup_eq_none_iff m x).mp h hx

theorem cacheStep_insert_preprocessors {st : ServerState} {ct : String}
    (h : alookup st.preprocessors ct = none) (p : Option Detector) :
    cacheStep st { st with preprocessors := st.preprocessors ++ [(ct, p)] } :=
  ⟨⟨fun _ _ h => h, fun _ _ h => h, fun _ _ h => h,
    fun _ _ hh => alookup_append_some _ hh⟩,
    fun ⟨d1, d2, d3, d4⟩ => ⟨d1, d2, d3, nodup_insert_keys h p d4⟩⟩

theorem cacheStep_insert_models {st : ServerState} {ct : String}
    (h : alookup st.models ct = none) (m : CNModel) :
    cacheStep st { st with models := st.models ++ [(ct, m)] } :=
  ⟨⟨fun _ _ h => h, fun _ _ hh => alookup_append_some _ hh, fun _ _ h => h,
    fun _ _ h => h⟩,
    fun ⟨d1, d2, d3, d4⟩ => ⟨d1, nodup_insert_keys h m d2, d3, d4⟩⟩

theorem cacheStep_insert_pipelines {st : ServerState} {key : String}
    (h : alookup st.pipelines key = none) (p : CNPipeline) :
    cacheStep st { st with pipelines := st.pipelines ++ [(key, p)] } :=
  ⟨⟨fun _ _ h => h, fun _ _ h => h, fun _ _ hh => alookup_append_some _ hh,
    fun _ _ h => h⟩,
    fun ⟨d1, d2, d3, d4⟩ => ⟨d1, d2, nodup_insert_keys h p d3, d4⟩⟩

theorem cacheStep_insert_pipeline_cache {st : ServerState} {m : String}
    (h : alookup st.pipeline_cache m = none) (p : Pipeline) :
    cacheStep st { st with pipeline_cache := st.pipeline_cache ++ [(m, p)] } :=
  ⟨⟨fun _ _ hh => alookup_append_some _ hh, fun _ _ h => h, fun _ _ h => h,
    fun _ _ h => h⟩,
    fun ⟨d1, d2, d3, d4⟩ => ⟨nodup_insert_keys h p d1, d2, d3, d4⟩⟩

/-- Calling the pipeline never touches the caches. -/
theorem runCN_fst (ext : ExtLib) (st2 : ServerState) (p : CNPipeline)
    (k : CNKwargs) : (runCN ext st2 p k).1 = st2 := by
  unfold runCN
  split
  · rfl
  · split <;> rfl

theorem get_preprocessor_cacheStep (ext : ExtLib) (st : ServerState)
    (ct : String) : cacheStep st (get_preprocessor ext st ct).1 := by
  unfold get_preprocessor
  split
  · exact cacheStep_refl st
  · rename_i hpre
    split
    · exact cacheStep_refl st
    · exact cacheStep_insert_preprocessors hpre _

theorem preprocess_cacheStep (ext : ExtLib) (st : ServerState) (image : Img)
    (ct : String) : cacheStep st (preprocess ext st image ct).1 := by
  unfold preprocess
  split
  · exact cacheStep_refl st
  · have hg := get_preprocessor_cacheStep ext st ct
    split <;> rename_i heq
    · rw [heq] at hg; exact hg
    · split <;> rw [heq] at hg <;> exact hg
    · rw [heq] at hg; exact hg

theorem load_controlnet_cacheStep (ext : ExtLib) (st : ServerState)
    (ct : String) : cacheStep st (load_controlnet ext st ct).1 := by
  unfold load_controlnet
  split
  · exact cacheStep_refl st
  · rename_i hmod
    split
    · exact cacheStep_refl st
    · split
      · exact cacheStep_refl st
      · exact cacheStep_insert_models hmod _

theorem generate_cacheStep (ext : ExtLib) (st : ServerState) (prompt : String)
    (ci : Img) (ct base : String) (strength : Rat) (w h : Option Int)
    (steps : Int) (gs : Rat) (np : Option String) (seed : Option Int) :
    cacheStep st (generate ext st prompt ci ct base strength w h steps gs np seed).1 := by
  unfold generate
  have hl := load_controlnet_cacheStep ext st ct
  split <;> rename_i heq
  · rw [heq] at hl
    exact hl
  · rw [heq] at hl
    refine cacheStep_trans hl ?_
    split
    all_goals dsimp only
    · split
      · rw [runCN_fst]
        exact cacheStep_refl _
      · exact cacheStep_refl _
    · split
      · rw [runCN_fst]
        exact cacheStep_refl _
      · rename_i hlk
        rw [runCN_fst]
        exact cacheStep_insert_pipelines hlk _

theorem load_pipeline_cacheStep (ext : ExtLib) (st : ServerState) (m : String) :
    cacheStep st (load_pipeline ext st m).1 := by
  unfold load_pipeline
  split
  · exact cacheStep_refl st
  · rename_i hmiss
    dsimp only
    split
    · exact cacheStep_refl st
    · exact cacheStep_insert_pipeline_cache hmiss _

theorem controlnet_preprocess_cacheStep (ext : ExtLib) (st : ServerState)
    (req : ControlNetPreprocessRequest) :
    cacheStep st (controlnet_preprocess ext st req).2 := by
  unfold controlnet_preprocess
  split
  · exact cacheStep_refl st
  · exact cacheStep_refl st
  · rename_i input_image hdec
    have hp := preprocess_cacheStep ext st input_image req.type
    split <;> rename_i heq <;> rw [heq] at hp <;> exact hp

theorem controlnet_generate_cacheStep (ext : ExtLib) (st : ServerState)
    (req : ControlNetGenerateRequest) :
    cacheStep st (controlnet_generate ext st req).2 := by
  unfold controlnet_generate
  split
  · exact cacheStep_refl st
  · exact cacheStep_refl st
  · rename_i control_image hdec
    have hp := generate_cacheStep ext st req.prompt control_image req.type
      req.model_id req.strength req.width req.height req.num_inference_steps
      req.guidance_scale req.negative_prompt req.seed
    split <;> rename_i heq <;> rw [heq] at hp <;> exact hp

theorem text_to_image_cacheStep (ext : ExtLib) (st : ServerState)
    (req : TextToImageRequest) :
    cacheStep st (text_to_image ext st req).2 := by
  unfold text_to_image
  have hp := load_pipeline_cacheStep ext st req.model_id
  split <;> rename_i heq <;> rw [heq] at hp
  · exact hp
  · split
    · exact hp
    · split
      · exact hp
      · exact hp

/-- C5: every request handler only ever extends the four caches: an entry
present under a key before the request is still present, unchanged, after
it (no eviction, no invalidation, no overwrite), and keys stay distinct,
so at most one cached instance exists per key. -/
theorem caches_lazy_no_eviction (ext : ExtLib) (st : ServerState) :
    (∀ req : ControlNetPreprocessRequest,
      entriesPreserved st (controlnet_preprocess ext st req).2 ∧
      (distinctKeys st → distinctKeys (controlnet_preprocess ext st req).2)) ∧
    (∀ req : ControlNetGenerateRequest,
      entriesPreserved st (controlnet_generate ext st req).2 ∧
      (distinctKeys st → distinctKeys (controlnet_generate ext st req).2)) ∧
    (∀ req : TextToImageRequest,
      entriesPreserved st (text_to_image ext st req).2 ∧
      (distinctKeys st → distinctKeys (text_to_image ext st req).2)) ∧
    (entriesPreserved st (get_controlnet_types st).2 ∧
      (distinctKeys st → distinctKeys (get_controlnet_types st).2)) :=
  ⟨fun req => controlnet_preprocess_cacheStep ext st req,
   fun req => controlnet_generate_cacheStep ext st req,
   fun req => text_to_image_cacheStep ext st req,
   cacheStep_refl st⟩

/-- Witness for C5: a concrete preprocess request against the fresh state. -/
theorem caches_lazy_no_eviction_witness :
    entriesPreserved initialState
      (controlnet_preprocess extOk initialState ⟨"", "canny"⟩).2 ∧
    distinctKeys (controlnet_preprocess extOk initialState ⟨"", "canny"⟩).2 :=
  ⟨((caches_lazy_no_eviction extOk initialState).1 ⟨"", "canny"⟩).1,
   ((caches_lazy_no_eviction extOk initialState).1 ⟨"", "canny"⟩).2
     (by refine ⟨?_, ?_, ?_, ?_⟩ <;> simp [initialState])⟩

/-- C6: omitting the numeric fields applies the declared defaults, and
those defaults are what reaches the pipeline kwargs:
`num_inference_steps=50` and `guidance_scale=7.5` on both generation
endpoints, `strength=1.0` (as `controlnet_conditioning_scale`) on
`/controlnet/generate`. -/
theorem numeric_defaults_forwarded :
    (∀ j : TextToImageJson,
      j.num_inference_steps = none → j.guidance_scale = none →
      (buildT2IKwargs (TextToImageRequest.ofJson j)).num_inference_steps = 50 ∧
      (buildT2IKwargs (TextToImageRequest.ofJson j)).guidance_scale = 7.5) ∧
    (∀ (g : ControlNetGenerateJson) (img : Img),
      g.num_inference_steps = none → g.guidance_scale = none →
      g.strength = none →
      (buildCNKwargs (ControlNetGenerateRequest.ofJson g).prompt img
        (ControlNetGenerateRequest.ofJson g).strength
        (ControlNetGenerateRequest.ofJson g).width
        (ControlNetGenerateRequest.ofJson g).height
        (ControlNetGenerateRequest.ofJson g).num_inference_steps
        (ControlNetGenerateRequest.ofJson g).guidance_scale
        (ControlNetGenerateRequest.ofJson g).negative_prompt
        (ControlNetGenerateRequest.ofJson g).seed).num_inference_steps = 50 ∧
      (buildCNKwargs (ControlNetGenerateRequest.ofJson g).prompt img
        (ControlNetGenerateRequest.ofJson g).strength
        (ControlNetGenerateRequest.ofJson g).width
        (ControlNetGenerateRequest.ofJson g).height
        (ControlNetGenerateRequest.ofJson g).num_inference_steps
        (ControlNetGenerateRequest.ofJson g).guidance_scale
        (ControlNetGenerateRequest.ofJson g).negative_prompt
        (ControlNetGenerateRequest.ofJson g).seed).guidance_scale = 7.5 ∧
      (buildCNKwargs (ControlNetGenerateRequest.ofJson g).prompt img
        (ControlNetGenerateRequest.ofJson g).strength
        (ControlNetGenerateRequest.ofJson g).width
        (ControlNetGenerateRequest.ofJson g).height
        (ControlNetGenerateRequest.ofJson g).num_inference_steps
        (ControlNetGenerateRequest.ofJson g).guidance_scale
        (ControlNetGenerateRequest.ofJson g).negative_prompt
        (ControlNetGenerateRequest.ofJson g).seed).controlnet_conditioning_scale = 1) := by
  constructor
  · intro j h1 h2
    simp [buildT2IKwargs, TextToImageRequest.ofJson, h1, h2]
  · intro g img h1 h2 h3
    simp [buildCNKwargs, ControlNetGenerateRequest.ofJson, h1, h2, h3]

/-- Witness for C6: concrete wire requests with every defaulted field
omitted. -/
theorem numeric_defaults_forwarded_witness :
    ((buildT2IKwargs (TextToImageRequest.ofJson
        ⟨"m", "p", none, none, none, none, none, none⟩)).num_inference_steps = 50 ∧
      (buildT2IKwargs (TextToImageRequest.ofJson
        ⟨"m", "p", none, none, none, none, none, none⟩)).guidance_scale = 7.5) ∧
    ((buildCNKwargs (ControlNetGenerateRequest.ofJson
        ⟨"p", "img", "canny", none, none, none, none, none, none, none, none⟩).prompt
        (Img.gray [[0]])
        (ControlNetGenerateRequest.ofJson
          ⟨"p", "img", "canny", none, none, none, none, none, none, none, none⟩).strength
        (ControlNetGenerateRequest.ofJson
          ⟨"p", "img", "canny", none, none, none, none, none, none, none, none⟩).width
        (ControlNetGenerateRequest.ofJson
          ⟨"p", "img", "canny", none, none, none, none, none, none, none, none⟩).height
        (ControlNetGenerateRequest.ofJson
          ⟨"p", "img", "canny", none, none, none, none, none, none, none, none⟩).num_inference_steps
        (ControlNetGenerateRequest.ofJson
          ⟨"p", "img", "canny", none, none, none, none, none, none, none, none⟩).guidance_scale
        (ControlNetGenerateRequest.ofJson
          ⟨"p", "img", "canny", none, none, none, none, none, none, none, none⟩).negative_prompt
        (ControlNetGenerateRequest.ofJson
          ⟨"p", "img", "canny", none, none, none, none, none, none, none, none⟩).seed).num_inference_steps = 50 ∧
      (buildCNKwargs (ControlNetGenerateRequest.ofJson
        ⟨"p", "img", "canny", none, none, none, none, none, none, none, none⟩).prompt
        (Img.gray [[0]])
        (ControlNetGenerateRequest.ofJson
          ⟨"p", "img", "canny", none, none, none, none, none, none, none, none⟩).strength
        (ControlNetGenerateRequest.ofJson
          ⟨"p", "img", "canny", none, none, none, none, none, none, none, none⟩).width
        (ControlNetGenerateRequest.ofJson
          ⟨"p", "img", "canny", none, none, none, none, none, none, none, none⟩).height
        (ControlNetGenerateRequest.ofJson
          ⟨"p", "img", "canny", none, none, none, none, none, none, none, none⟩).num_inference_steps
        (ControlNetGenerateRequest.ofJson
          ⟨"p", "img", "canny", none, none, none, none, none, none, none, none⟩).guidance_scale
        (ControlNetGenerateRequest.ofJson
          ⟨"p", "img", "canny", none, none, none, none, none, none, none, none⟩).negative_prompt
        (ControlNetGenerateRequest.ofJson
          ⟨"p", "img", "canny", none, none, none, none, none, none, none, none⟩).seed).guidance_scale = 7.5 ∧
      (buildCNKwargs (ControlNetGenerateRequest.ofJson
        ⟨"p", "img", "canny", none, none, none, none, none, none, none, none⟩).prompt
        (Img.gray [[0]])
        (ControlNetGenerateRequest.ofJson
          ⟨"p", "img", "canny", none, none, none, none, none, none, none, none⟩).strength
        (ControlNetGenerateRequest.ofJson
          ⟨"p", "img", "canny", none, none, none, none, none, none, none, none⟩).width
        (ControlNetGenerateRequest.ofJson
          ⟨"p", "img", "canny", none, none, none, none, none, none, none, none⟩).height
        (ControlNetGenerateRequest.ofJson
          ⟨"p", "img", "canny", none, none, none, none, none, none, none, none⟩).num_inference_steps
        (ControlNetGenerateRequest.ofJson
          ⟨"p", "img", "canny", none, none, none, none, none, none, none, none⟩).guidance_scale
        (ControlNetGenerateRequest.ofJson
          ⟨"p", "img", "canny", none, none, none, none, none, none, none, none⟩).negative_prompt
        (ControlNetGenerateRequest.ofJson
          ⟨"p", "img", "canny", none, none, none, none, none, none, none, none⟩).seed).controlnet_conditioning_scale = 1) :=
  ⟨numeric_defaults_forwarded.1 ⟨"m", "p", none, none, none, none, none, none⟩
      rfl rfl,
    numeric_defaults_forwarded.2
      ⟨"p", "img", "canny", none, none, none, none, none, none, none, none⟩
      (Img.gray [[0]]) rfl rfl rfl⟩

/-- Every valid control type has a ControlNet hub model. -/
theorem model_map_some {ty : String} (hty : ty ∈ validControlTypes) :
    ∃ mid, alookup model_map ty = some mid := by
  rcases (by simpa [validControlTypes] using hty : ty = "canny" ∨ ty = "depth"
      ∨ ty = "hed" ∨ ty = "openpose" ∨ ty = "scribble")
    with rfl | rfl | rfl | rfl | rfl <;> exact ⟨_, rfl⟩

/-- When no external load fails, `load_pipeline` returns a pipeline. -/
theorem load_pipeline_ok_of_total {ext : ExtLib}
    (ht : ∀ f s, ext.t2iLoad f s = .ok ()) (st : ServerState) (m : String) :
    ∃ st' log p, load_pipeline ext st m = (st', log, .ok p) := by
  unfold load_pipeline
  cases hl : alookup st.pipeline_cache m with
  | some p => exact ⟨st, [], p, rfl⟩
  | none => exact ⟨_, _, _, by dsimp only; rw [ht (selectFamily m) m]⟩

/-- When no external call fails, `generate` with a valid control type
returns an image. -/
theorem generate_ok_of_total {ext : ExtLib}
    (hcn : ∀ s, ext.cnLoad s = .ok ())
    (hcnp : ∀ s c, ext.cnPipeLoad s c = .ok ())
    (hrun : ∀ p k, ∃ i rest, ext.runCNPipe p k = .ok (PipeItem.image i :: rest))
    (st : ServerState) (prompt : String) (ci : Img) {ty : String}
    (hty : ty ∈ validControlTypes) (base : String) (strength : Rat)
    (w h : Option Int) (steps : Int) (gs : Rat) (np : Option String)
    (seed : Option Int) :
    ∃ st' i, generate ext st prompt ci ty base strength w h steps gs np seed
      = (st', .ok i) := by
  have hload : ∃ st1 mdl, load_controlnet ext st ty = (st1, .ok mdl) := by
    unfold load_controlnet
    cases hm : alookup st.models ty with
    | some mdl => exact ⟨st, mdl, rfl⟩
    | none =>
      obtain ⟨mid, hmid⟩ := model_map_some hty
      exact ⟨_, _, by dsimp only; rw [hmid]; dsimp only; rw [hcn mid]⟩
  obtain ⟨st1, mdl, hl⟩ := hload
  unfold generate
  rw [hl]
  dsimp only
  cases hp : alookup st1.pipelines (base ++ ":" ++ ty) with
  | some pipeline =>
    obtain ⟨i, rest, hi⟩ := hrun pipeline
      (buildCNKwargs prompt ci strength w h steps gs np seed)
    exact ⟨st1, i, by simp [runCN, extractImage, hi]⟩
  | none =>
    obtain ⟨i, rest, hi⟩ := hrun ⟨base, mdl⟩
      (buildCNKwargs prompt ci strength w h steps gs np seed)
    exact ⟨{ st1 with pipelines := st1.pipelines ++ [(base ++ ":" ++ ty, ⟨base, mdl⟩)] },
      i, by simp [runCN, extractImage, hcnp base mdl, hi]⟩

/-- C7: the optional request fields are forwarded to the pipeline call
exactly when present (`none` means the kwarg is absent), and a request
omitting all of them completes without raising: under an external run in
which no library call fails, both generation endpoints return 200. -/
theorem optional_fields_forwarded :
    (∀ req : TextToImageRequest,
      (buildT2IKwargs req).width = req.width ∧
      (buildT2IKwargs req).height = req.height ∧
      (buildT2IKwargs req).negative_prompt = req.negative_prompt ∧
      (buildT2IKwargs req).generator = req.seed) ∧
    (∀ (p : String) (img : Img) (s : Rat) (w h : Option Int) (steps : Int)
        (gs : Rat) (np : Option String) (seed : Option Int),
      (buildCNKwargs p img s w h steps gs np seed).width = w ∧
      (buildCNKwargs p img s w h steps gs np seed).height = h ∧
      (buildCNKwargs p img s w h steps gs np seed).negative_prompt = np ∧
      (buildCNKwargs p img s w h steps gs np seed).generator = seed) ∧
    (∀ (ext : ExtLib) (st : ServerState) (j : TextToImageJson),
      ExtLib.total ext →
      j.width = none → j.height = none → j.negative_prompt = none →
      j.seed = none →
      ∃ resp, (text_to_image ext st (TextToImageRequest.ofJson j)).1 = .ok resp) ∧
    (∀ (ext : ExtLib) (st : ServerState) (g : ControlNetGenerateJson) (img : Img),
      ExtLib.total ext →
      g.width = none → g.height = none → g.negative_prompt = none →
      g.seed = none →
      g.type ∈ validControlTypes →
      base64_to_image g.control_image = .ok img →
      ∃ resp, (controlnet_generate ext st (ControlNetGenerateRequest.ofJson g)).1
        = .ok resp) := by
  refine ⟨fun req => ⟨rfl, rfl, rfl, rfl⟩,
    fun p img s w h steps gs np seed => ⟨rfl, rfl, rfl, rfl⟩, ?_, ?_⟩
  · intro ext st j htot _ _ _ _
    obtain ⟨-, -, -, -, -, -, ht2i, hrun, -⟩ := htot
    obtain ⟨st', log, p, hl⟩ := load_pipeline_ok_of_total ht2i st
      (TextToImageRequest.ofJson j).model_id
    obtain ⟨i, rest, hi⟩ := hrun p (buildT2IKwargs (TextToImageRequest.ofJson j))
    unfold text_to_image
    rw [hl]
    dsimp only
    rw [hi]
    dsimp only [extractImage]
    exact ⟨_, rfl⟩
  · intro ext st g img htot _ _ _ _ hty hdec
    obtain ⟨-, -, -, -, hcn, hcnp, -, -, hruncn⟩ := htot
    obtain ⟨st', i, hg⟩ := generate_ok_of_total hcn hcnp hruncn st
      (ControlNetGenerateRequest.ofJson g).prompt img
      (show (ControlNetGenerateRequest.ofJson g).type ∈ validControlTypes from hty)
      (ControlNetGenerateRequest.ofJson g).model_id
      (ControlNetGenerateRequest.ofJson g).strength
      (ControlNetGenerateRequest.ofJson g).width
      (ControlNetGenerateRequest.ofJson g).height
      (ControlNetGenerateRequest.ofJson g).num_inference_steps
      (ControlNetGenerateRequest.ofJson g).guidance_scale
      (ControlNetGenerateRequest.ofJson g).negative_prompt
      (ControlNetGenerateRequest.ofJson g).seed
    unfold controlnet_generate
    rw [show base64_to_image (ControlNetGenerateRequest.ofJson g).control_image
      = Except.ok img from hdec]
    dsimp only
    rw [hg]
    exact ⟨_, rfl⟩

/-- Witness for C7: concrete requests with every optional field omitted,
against the all-successful external run. -/
theorem optional_fields_forwarded_witness :
    (∃ resp, (text_to_image extOk initialState (TextToImageRequest.ofJson
        ⟨"sd", "a cat", none, none, none, none, none, none⟩)).1 = .ok resp) ∧
    (∃ resp, (controlnet_generate extOk initialState
        (ControlNetGenerateRequest.ofJson
          ⟨"a cat", image_to_base64 (Img.gray [[3]]), "canny", none, none,
            none, none, none, none, none, none⟩)).1 = .ok resp) :=
  ⟨optional_fields_forwarded.2.2.1 extOk initialState
      ⟨"sd", "a cat", none, none, none, none, none, none⟩
      ⟨rfl, rfl, rfl, fun _ i => ⟨i, rfl⟩, fun _ => rfl, fun _ _ => rfl,
        fun _ _ => rfl, fun _ _ => ⟨Img.gray [[0]], [], rfl⟩,
        fun _ _ => ⟨Img.gray [[0]], [], rfl⟩⟩
      rfl rfl rfl rfl,
    optional_fields_forwarded.2.2.2 extOk initialState
      ⟨"a cat", image_to_base64 (Img.gray [[3]]), "canny", none, none,
        none, none, none, none, none, none⟩ (Img.gray [[3]])
      ⟨rfl, rfl, rfl, fun _ i => ⟨i, rfl⟩, fun _ => rfl, fun _ _ => rfl,
        fun _ _ => rfl, fun _ _ => ⟨Img.gray [[0]], [], rfl⟩,
        fun _ _ => ⟨Img.gray [[0]], [], rfl⟩⟩
      rfl rfl rfl rfl (by decide) (by decide)⟩

/-- A membership in the valid-type list is one of five literals. -/
theorem valid_cases {ty : String} (hty : ty ∈ validControlTypes) :
    ty = "canny" ∨ ty = "depth" ∨ ty = "hed" ∨ ty = "openpose"
      ∨ ty = "scribble" := by
  simpa [validControlTypes] using hty

/-- On a valid control type, a preprocessor-construction failure is never a
`ValueError`: only an external load can fail. -/
theorem mkPreprocessor_valid_errors (ext : ExtLib) {ty : String}
    (hty : ty ∈ validControlTypes) :
    ∀ e, mkPreprocessor ext ty = .error e → ∃ m, e = .other m := by
  intro e h
  rcases valid_cases hty with rfl | rfl | rfl | rfl | rfl
  · simp [mkPreprocessor] at h
  · simp only [mkPreprocessor, reduceIte] at h
    cases hm : ext.midasLoad with
    | ok u => simp [hm] at h
    | error m => rw [hm] at h; exact ⟨m, by injection h.symm⟩
  · simp only [mkPreprocessor, reduceIte] at h
    cases hm : ext.hedLoad with
    | ok u => simp [hm] at h
    | error m => rw [hm] at h; exact ⟨m, by injection h.symm⟩
  · simp only [mkPreprocessor, reduceIte] at h
    cases hm : ext.openposeLoad with
    | ok u => simp [hm] at h
    | error m => rw [hm] at h; exact ⟨m, by injection h.symm⟩
  · simp [mkPreprocessor] at h

/-- On a valid control type, `_get_preprocessor` failures are never
`ValueError`s. -/
theorem get_preprocessor_valid_errors (ext : ExtLib) (st : ServerState)
    {ty : String} (hty : ty ∈ validControlTypes) :
    ∀ st' e, get_preprocessor ext st ty = (st', .error e) → ∃ m, e = .other m := by
  intro st' e h
  unfold get_preprocessor at h
  split at h
  · simp at h
  · split at h
    · rename_i heq
      injection h with h1 h2
      injection h2 with h3
      exact h3 ▸ mkPreprocessor_valid_errors ext hty _ heq
    · simp at h

/-- On a valid control type, a `preprocess` failure is never a
`ValueError`. -/
theorem preprocess_valid_errors (ext : ExtLib) (st : ServerState) (img : Img)
    {ty : String} (hty : ty ∈ validControlTypes) :
    ∀ st' e, preprocess ext st img ty = (st', .error e) → ∃ m, e = .other m := by
  intro st' e h
  unfold preprocess at h
  split at h
  · simp at h
  · split at h
    · rename_i heq
      injection h with h1 h2
      injection h2 with h3
      exact h3 ▸ get_preprocessor_valid_errors ext st hty _ _ heq
    · split at h
      · simp at h
      · rename_i hd
        injection h with h1 h2
        injection h2 with h3
        exact ⟨_, h3.symm⟩
    · injection h with h1 h2
      injection h2 with h3
      exact ⟨_, h3.symm⟩

/-- An unknown control type makes `preprocess` raise the `ValueError` of
`_get_preprocessor` and leaves the whole state untouched (assuming the
caches only ever held valid keys, as they do from process start). -/
theorem preprocess_invalid (ext : ExtLib) (st : ServerState) (img : Img)
    {ty : String} (hw : wfCaches st) (hty : ty ∉ validControlTypes) :
    preprocess ext st img ty
      = (st, .error (.valueError ("Unknown control type: " ++ ty))) := by
  have hpre : alookup st.preprocessors ty = none := by
    rw [alookup_eq_none_iff]
    intro hmem
    exact hty (hw.1 ty hmem)
  have h5 : ¬(ty = "canny" ∨ ty = "depth" ∨ ty = "hed" ∨ ty = "openpose"
      ∨ ty = "scribble") := fun hc => hty (by simp [validControlTypes]; tauto)
  push_neg at h5
  obtain ⟨h1, h2, h3, h4, h5⟩ := h5
  unfold preprocess get_preprocessor mkPreprocessor
  simp [h1, h2, h3, h4, h5, hpre]

/-- On a valid control type, a `load_controlnet` failure is never a
`ValueError`. -/
theorem load_controlnet_valid_errors (ext : ExtLib) (st : ServerState)
    {ty : String} (hty : ty ∈ validControlTypes) :
    ∀ st' e, load_controlnet ext st ty = (st', .error e) → ∃ m, e = .other m := by
  intro st' e h
  unfold load_controlnet at h
  split at h
  · simp at h
  · split at h
    · rename_i hmap
      obtain ⟨mid, hmid⟩ := model_map_some hty
      rw [hmid] at hmap
      cases hmap
    · split at h
      · injection h with h1 h2
        injection h2 with h3
        exact ⟨_, h3.symm⟩
      · simp at h

/-- An unknown control type makes `load_controlnet` raise a `ValueError`
and leaves the whole state untouched. -/
theorem load_controlnet_invalid (ext : ExtLib) (st : ServerState)
    {ty : String} (hw : wfCaches st) (hty : ty ∉ validControlTypes) :
    load_controlnet ext st ty
      = (st, .error (.valueError ("Unknown control type: " ++ ty))) := by
  have hmod : alookup st.models ty = none := by
    rw [alookup_eq_none_iff]
    intro hmem
    exact hty (hw.2 ty hmem)
  have hmap : alookup model_map ty = none := by
    rw [alookup_eq_none_iff]
    intro hmem
    refine hty ?_
    simpa [model_map, validControlTypes] using hmem
  unfold load_controlnet
  simp [hmod, hmap]

/-- The result extraction fails with either an `IndexError` (generic) or
the `isinstance` `ValueError`. -/
theorem extractImage_error : ∀ (items : List PipeItem) (e : Err),
    extractImage items = .error e →
    (∃ m, e = .other m) ∨ e = .valueError "Expected PIL Image from pipeline" := by
  intro items e h
  match items with
  | [] =>
    injection h with h1
    exact Or.inl ⟨_, h1.symm⟩
  | .image i :: rest => simp [extractImage] at h
  | .nonImage :: rest =>
    injection h with h1
    exact Or.inr h1.symm

/-- A failure of the pipeline-call tail of `generate` is a generic library
exception or the `isinstance` `ValueError`. -/
theorem runCN_error (ext : ExtLib) (st2 : ServerState) (p : CNPipeline)
    (k : CNKwargs) : ∀ st' e, runCN ext st2 p k = (st', .error e)
      → (∃ m, e = .other m) ∨ e = .valueError "Expected PIL Image from pipeline" := by
  intro st' e h
  unfold runCN at h
  split at h
  · injection h with h1 h2
    injection h2 with h3
    exact Or.inl ⟨_, h3.symm⟩
  · split at h
    · rename_i e0 hex
      injection h with h1 h2
      injection h2 with h3
      exact h3 ▸ extractImage_error _ _ hex
    · simp at h

/-- On a valid control type, a `generate` failure is a generic exception or
the `isinstance` `ValueError`, never the unknown-type `ValueError`. -/
theorem generate_valid_errors (ext : ExtLib) (st : ServerState)
    (prompt : String) (ci : Img) {ty : String} (hty : ty ∈ validControlTypes)
    (base : String) (strength : Rat) (w h : Option Int) (steps : Int)
    (gs : Rat) (np : Option String) (seed : Option Int) :
    ∀ st' e, generate ext st prompt ci ty base strength w h steps gs np seed
      = (st', .error e) →
      (∃ m, e = .other m) ∨ e = .valueError "Expected PIL Image from pipeline" := by
  intro st' e h
  unfold generate at h
  split at h
  · rename_i heq
    injection h with h1 h2
    injection h2 with h3
    exact Or.inl (h3 ▸ load_controlnet_valid_errors ext st hty _ _ heq)
  · dsimp only at h
    split at h
    · exact runCN_error ext _ _ _ _ _ h
    · split at h
      · injection h with h1 h2
        injection h2 with h3
        exact Or.inl ⟨_, h3.symm⟩
      · exact runCN_error ext _ _ _ _ _ h

/-- An unknown control type makes `generate` raise the `ValueError` of
`load_controlnet` and leaves the whole state untouched. -/
theorem generate_invalid (ext : ExtLib) (st : ServerState) (prompt : String)
    (ci : Img) {ty : String} (hw : wfCaches st) (hty : ty ∉ validControlTypes)
    (base : String) (strength : Rat) (w h : Option Int) (steps : Int)
    (gs : Rat) (np : Option String) (seed : Option Int) :
    generate ext st prompt ci ty base strength w h steps gs np seed
      = (st, .error (.valueError ("Unknown control type: " ++ ty))) := by
  unfold generate
  rw [load_controlnet_invalid ext st hw hty]

/-- C1 (amended): on `POST /controlnet/preprocess`, once the supplied
image decodes, the response status is 400 exactly when the control type is
outside {canny, depth, hed, openpose, scribble}; on
`POST /controlnet/generate` an unknown control type always yields 400, but
a 400 can also arise with a valid type, namely when the pipeline's
extracted output is not a PIL image (the
`ValueError("Expected PIL Image from pipeline")` of controlnet.py lines
234-240, caught by the same `except ValueError` clause); every failure is
reported as 400 or 500, and the `detail` field echoes the exception text
behind the endpoint's fixed label. -/
theorem controlnet_error_classification (ext : ExtLib) (st : ServerState)
    (reqP : ControlNetPreprocessRequest) (reqG : ControlNetGenerateRequest)
    (imgP imgG : Img) (hw : wfCaches st)
    (hdecP : base64_to_image reqP.image = .ok imgP)
    (hdecG : base64_to_image reqG.control_image = .ok imgG) :
    statusSpec (controlnet_preprocess ext st reqP).1 reqP.type
      "Invalid control type: " "Preprocessing failed: " ∧
    statusSpecGen (controlnet_generate ext st reqG).1 reqG.type := by
  constructor
  · unfold controlnet_preprocess
    rw [hdecP]
    dsimp only
    by_cases hty : reqP.type ∈ validControlTypes
    · cases hp : preprocess ext st imgP reqP.type with
      | mk st' res =>
        cases res with
        | ok cimg =>
          dsimp only
          unfold statusSpec
          refine ⟨⟨?_, fun hc => absurd hty hc⟩, ?_⟩
          · rintro ⟨d, hd⟩
            simp at hd
          · intro s d hsd
            simp at hsd
        | error e =>
          obtain ⟨m, rfl⟩ := preprocess_valid_errors ext st imgP hty _ _ hp
          dsimp only
          unfold statusSpec
          refine ⟨⟨?_, fun hc => absurd hty hc⟩, ?_⟩
          · rintro ⟨d, hd⟩
            simp at hd
          · intro s d hsd
            injection hsd with h1 h2
            exact Or.inr ⟨h1.symm, m, h2.symm⟩
    · rw [preprocess_invalid ext st imgP hw hty]
      dsimp only
      unfold statusSpec
      refine ⟨⟨fun _ => hty, fun _ => ⟨_, rfl⟩⟩, ?_⟩
      intro s d hsd
      injection hsd with h1 h2
      exact Or.inl ⟨h1.symm, h2.symm⟩
  · unfold controlnet_generate
    rw [hdecG]
    dsimp only
    by_cases hty : reqG.type ∈ validControlTypes
    · cases hp : generate ext st reqG.prompt imgG reqG.type reqG.model_id
          reqG.strength reqG.width reqG.height reqG.num_inference_steps
          reqG.guidance_scale reqG.negative_prompt reqG.seed with
      | mk st' res =>
        cases res with
        | ok rimg =>
          dsimp only
          unfold statusSpecGen
          refine ⟨fun hc => absurd hty hc, ?_, ?_, ?_⟩
          · intro s d hsd
            simp at hsd
          · intro d hd
            simp at hd
          · intro d hd
            simp at hd
        | error e =>
          rcases generate_valid_errors ext st reqG.prompt imgG hty
              reqG.model_id reqG.strength reqG.width reqG.height
              reqG.num_inference_steps reqG.guidance_scale reqG.negative_prompt
              reqG.seed _ _ hp with ⟨m, rfl⟩ | rfl
          · dsimp only
            unfold statusSpecGen
            refine ⟨fun hc => absurd hty hc, ?_, ?_, ?_⟩
            · intro s d hsd
              injection hsd with h1 h2
              exact Or.inr h1.symm
            · intro d hd
              simp at hd
            · intro d hd
              injection hd with h1 h2
              exact ⟨m, h2.symm⟩
          · dsimp only
            unfold statusSpecGen
            refine ⟨fun hc => absurd hty hc, ?_, ?_, ?_⟩
            · intro s d hsd
              injection hsd with h1 h2
              exact Or.inl h1.symm
            · intro d hd
              injection hd with h1 h2
              exact Or.inr h2.symm
            · intro d hd
              simp at hd
    · rw [generate_invalid ext st reqG.prompt imgG hw hty reqG.model_id
        reqG.strength reqG.width reqG.height reqG.num_inference_steps
        reqG.guidance_scale reqG.negative_prompt reqG.seed]
      dsimp only
      unfold statusSpecGen
      refine ⟨fun _ => rfl, ?_, ?_, ?_⟩
      · intro s d hsd
        injection hsd with h1 h2
        exact Or.inl h1.symm
      · intro d hd
        injection hd with h1 h2
        exact Or.inl h2.symm
      · intro d hd
        simp at hd

/-- Witness for C1: an unknown type `"bogus"` on preprocess and the valid
type `"canny"` on generate, against the fresh state. -/
theorem controlnet_error_classification_witness :
    statusSpec (controlnet_preprocess extOk initialState
        ⟨image_to_base64 (Img.gray [[7]]), "bogus"⟩).1 "bogus"
      "Invalid control type: " "Preprocessing failed: " ∧
    statusSpecGen (controlnet_generate extOk initialState
        ⟨"p", image_to_base64 (Img.gray [[7]]), "canny", "base", 1, none,
          none, 50, 7.5, none, none⟩).1 "canny" :=
  controlnet_error_classification extOk initialState
    ⟨image_to_base64 (Img.gray [[7]]), "bogus"⟩
    ⟨"p", image_to_base64 (Img.gray [[7]]), "canny", "base", 1, none,
      none, 50, 7.5, none, none⟩
    (Img.gray [[7]]) (Img.gray [[7]])
    ⟨fun k hk => by simp [initialState] at hk,
      fun k hk => by simp [initialState] at hk⟩
    (by decide) (by decide)

/-- Counterexample to C1 as stated: a `POST /controlnet/generate` request
with the valid control type `"canny"` and a decodable control image is
answered with HTTP 400 — not 500 — when the external pipeline returns a
batch whose first element is not a PIL image: the
`ValueError("Expected PIL Image from pipeline")` raised by
controlnet.py lines 234-240 is caught by the endpoint's
`except ValueError` clause. -/
theorem controlnet_error_classification_counterexample :
    "canny" ∈ validControlTypes ∧
    base64_to_image (image_to_base64 (Img.gray [[7]])) = .ok (Img.gray [[7]]) ∧
    (controlnet_generate extBadPipe initialState
        ⟨"p", image_to_base64 (Img.gray [[7]]), "canny", "base", 1, none,
          none, 50, 7.5, none, none⟩).1
      = .httpError 400 ("Invalid request: " ++ "Expected PIL Image from pipeline") :=
  ⟨by decide, by decide, by decide⟩

/-- C9: an unknown control type makes both `ControlNetManager.preprocess`
and `ControlNetManager.load_controlnet` raise a `ValueError` and leave the
entire server state, in particular all three manager caches, exactly as it
was. -/
theorem invalid_type_state_unchanged (ext : ExtLib) (st : ServerState)
    (img : Img) (ty : String) (hw : wfCaches st)
    (hty : ty ∉ validControlTypes) :
    preprocess ext st img ty
      = (st, .error (.valueError ("Unknown control type: " ++ ty))) ∧
    load_controlnet ext st ty
      = (st, .error (.valueError ("Unknown control type: " ++ ty))) :=
  ⟨preprocess_invalid ext st img hw hty, load_controlnet_invalid ext st hw hty⟩

/-- Witness for C9 at the unknown type `"bogus"`. -/
theorem invalid_type_state_unchanged_witness :
    preprocess extOk initialState (Img.gray [[1]]) "bogus"
      = (initialState, .error (.valueError ("Unknown control type: " ++ "bogus"))) ∧
    load_controlnet extOk initialState "bogus"
      = (initialState, .error (.valueError ("Unknown control type: " ++ "bogus"))) :=
  invalid_type_state_unchanged extOk initialState (Img.gray [[1]]) "bogus"
    ⟨fun k hk => by simp [initialState] at hk,
      fun k hk => by simp [initialState] at hk⟩
    (by decide)

/-- Decoding inverts encoding on each six-bit value. -/
theorem charSextet_sextetChar : ∀ n, n < 64 → charSextet (sextetChar n) = some n := by
  decide

/-- No alphabet character is the padding character. -/
theorem sextetChar_ne_pad (n : Nat) : sextetChar n ≠ '=' := by
  by_cases h : n < 64
  · have hall : ∀ m, m < 64 → sextetChar m ≠ '=' := by decide
    exact hall n h
  · unfold sextetChar
    rw [List.getD_eq_default]
    · decide
    · have : b64Chars.length = 64 := by decide
      omega

/-- Base64 decoding inverts base64 encoding on every byte list. -/
theorem b64decode_b64encode (bs : List Nat) (hb : ∀ b ∈ bs, b < 256) :
    b64decode (b64encode bs) = some bs := by
  have H : ∀ n (l : List Nat), l.length ≤ n → (∀ b ∈ l, b < 256) →
      b64decode (b64encode l) = some l := by
    intro n
    induction n with
    | zero =>
      intro l hlen _
      have hl : l = [] := List.length_eq_zero.mp (Nat.le_zero.mp hlen)
      subst hl
      rfl
    | succ n ih =>
      intro l hlen hball
      match l with
      | [] => rfl
      | [b1] =>
        have h1 : b1 < 256 := hball b1 (by simp)
        have e1 := charSextet_sextetChar (b1 / 4) (by omega)
        have e2 := charSextet_sextetChar (b1 % 4 * 16) (by omega)
        simp [b64encode, b64decode, e1, e2]
        omega
      | [b1, b2] =>
        have h1 : b1 < 256 := hball b1 (by simp)
        have h2 : b2 < 256 := hball b2 (by simp)
        have e1 := charSextet_sextetChar (b1 / 4) (by omega)
        have e2 := charSextet_sextetChar (b1 % 4 * 16 + b2 / 16) (by omega)
        have e3 := charSextet_sextetChar (b2 % 16 * 4) (by omega)
        simp [b64encode, b64decode, e1, e2, e3, sextetChar_ne_pad]
        omega
      | b1 :: b2 :: b3 :: rest =>
        have h1 : b1 < 256 := hball b1 (by simp)
        have h2 : b2 < 256 := hball b2 (by simp)
        have h3 : b3 < 256 := hball b3 (by simp)
        have hrest : b64decode (b64encode rest) = some rest := by
          refine ih rest ?_ (fun b hbm => hball b (by simp [hbm]))
          simp only [List.length_cons] at hlen
          omega
        have e1 := charSextet_sextetChar (b1 / 4) (by omega)
        have e2 := charSextet_sextetChar (b1 % 4 * 16 + b2 / 16) (by omega)
        have e3 := charSextet_sextetChar (b2 % 16 * 4 + b3 / 64) (by omega)
        have e4 := charSextet_sextetChar (b3 % 64) (by omega)
        simp [b64encode, b64decode, e1, e2, e3, e4, sextetChar_ne_pad, hrest]
        omega
  exact H bs.length bs le_rfl hb

/-- Reading a big-endian word inverts writing one, for 32-bit values. -/
theorem parseBe32_be32 (n : Nat) (hn : n < 4294967296) (rest : List Nat) :
    parseBe32 (be32 n ++ rest) = some (n, rest) := by
  simp [be32, parseBe32]
  omega

/-- A padded-or-truncated row has the requested length. -/
theorem length_padTo (n : Nat) (l : List Nat) : (padTo n l).length = n := by
  simp [padTo]

/-- Triple grouping divides the length by three. -/
theorem length_chunk3 : ∀ l : List Nat, (chunk3 l).length = l.length / 3
  | [] => by simp [chunk3]
  | [a] => by simp [chunk3]
  | [a, b] => by simp [chunk3]
  | a :: b :: c :: rest => by
    simp [chunk3, length_chunk3 rest]
    omega

/-- The grayscale raster builder returns exactly `h` rows. -/
theorem length_buildGrayRows (w : Nat) :
    ∀ (h : Nat) (vals : List Nat), (buildGrayRows w h vals).length = h
  | 0, _ => rfl
  | h + 1, vals => by
    simp [buildGrayRows, length_buildGrayRows w h]

/-- The RGB raster builder returns exactly `h` rows. -/
theorem length_buildRgbRows (w : Nat) :
    ∀ (h : Nat) (vals : List Nat), (buildRgbRows w h vals).length = h
  | 0, _ => rfl
  | h + 1, vals => by
    simp [buildRgbRows, length_buildRgbRows w h]

/-- An image without rows also has width zero. -/
theorem width_of_height_zero (img : Img) (h : img.height = 0) : img.width = 0 := by
  cases img with
  | gray rows =>
    have : rows = [] := List.length_eq_zero.mp h
    subst this
    rfl
  | rgb rows =>
    have : rows = [] := List.length_eq_zero.mp h
    subst this
    rfl

/-- Every byte the PNG model writes is a byte. -/
theorem pngEncode_bytes_lt (img : Img) : ∀ b ∈ pngEncode img, b < 256 := by
  intro b hb
  simp only [pngEncode, be32, List.append_assoc, List.cons_append,
    List.nil_append, List.mem_cons, List.mem_append] at hb
  rcases hb with rfl | rfl | rfl | rfl | rfl | rfl | rfl | rfl | hb
  · omega
  · omega
  · omega
  · omega
  · omega
  · omega
  · omega
  · omega
  · rcases hb with rfl | hb
    · cases img <;> simp [modeByte]
    · cases img with
      | gray rows =>
        simp [pixelBytes, List.mem_flatten, List.mem_map] at hb
        obtain ⟨row, hrow, v, hv, hveq⟩ := hb
        omega
      | rgb rows =>
        simp only [pixelBytes] at hb
        rw [List.mem_flatten] at hb
        obtain ⟨l, hl, hbl⟩ := hb
        rw [List.mem_map] at hl
        obtain ⟨row, hrow, rfl⟩ := hl
        rw [List.mem_flatten] at hbl
        obtain ⟨l2, hl2, hbl2⟩ := hbl
        rw [List.mem_map] at hl2
        obtain ⟨p, hp, rfl⟩ := hl2
        simp at hbl2
        rcases hbl2 with rfl | rfl | rfl <;> omega

/-- Decoding the PNG model of an image recovers its dimensions, for
dimensions below 2^32 (the IHDR word size). -/
theorem pngDecode_pngEncode (img : Img) (hw : img.width < 4294967296)
    (hh : img.height < 4294967296) :
    ∃ img', pngDecode (pngEncode img) = some img' ∧
      img'.width = img.width ∧ img'.height = img.height := by
  have e : pngEncode img
      = be32 img.width ++ (be32 img.height ++ (modeByte img :: pixelBytes img)) := by
    simp [pngEncode]
  unfold pngDecode
  rw [e, parseBe32_be32 _ hw]
  dsimp only
  rw [parseBe32_be32 _ hh]
  dsimp only
  cases img with
  | gray rows =>
    simp only [modeByte, reduceIte]
    refine ⟨_, rfl, ?_, ?_⟩
    · cases hrow : (Img.gray rows).height with
      | zero =>
        rw [width_of_height_zero _ hrow]
        rfl
      | succ h0 =>
        show (Img.gray (buildGrayRows (Img.gray rows).width (h0 + 1)
          (pixelBytes (Img.gray rows)))).width = (Img.gray rows).width
        simp [buildGrayRows, Img.width, length_padTo]
    · show (buildGrayRows _ _ _).length = _
      exact length_buildGrayRows _ _ _
  | rgb rows =>
    simp only [modeByte, reduceIte]
    refine ⟨_, rfl, ?_, ?_⟩
    · cases hrow : (Img.rgb rows).height with
      | zero =>
        rw [width_of_height_zero _ hrow]
        rfl
      | succ h0 =>
        show (Img.rgb (buildRgbRows (Img.rgb rows).width (h0 + 1)
          (pixelBytes (Img.rgb rows)))).width = (Img.rgb rows).width
        simp [buildRgbRows, Img.width, length_chunk3, length_padTo]
    · show (buildRgbRows _ _ _).length = _
      exact length_buildRgbRows _ _ _

/-- C8: decoding after encoding preserves image dimensions (for dimensions
below the 32-bit IHDR bound), and every successful response of the three
image endpoints carries the base64 encoding of some image together with
exactly that image's width and height and the format `"png"`. -/
theorem png_base64_responses :
    (∀ img : Img, img.width < 4294967296 → img.height < 4294967296 →
      ∃ img', base64_to_image (image_to_base64 img) = .ok img' ∧
        img'.width = img.width ∧ img'.height = img.height) ∧
    (∀ (ext : ExtLib) (st : ServerState) (req : ControlNetPreprocessRequest)
        (resp : ImageResponse) (st' : ServerState),
      controlnet_preprocess ext st req = (.ok resp, st') →
      ∃ i : Img, resp.image = image_to_base64 i ∧ resp.width = i.width ∧
        resp.height = i.height ∧ resp.format = "png") ∧
    (∀ (ext : ExtLib) (st : ServerState) (req : ControlNetGenerateRequest)
        (resp : ImageResponse) (st' : ServerState),
      controlnet_generate ext st req = (.ok resp, st') →
      ∃ i : Img, resp.image = image_to_base64 i ∧ resp.width = i.width ∧
        resp.height = i.height ∧ resp.format = "png") ∧
    (∀ (ext : ExtLib) (st : ServerState) (req : TextToImageRequest)
        (resp : ImageResponse) (st' : ServerState),
      text_to_image ext st req = (.ok resp, st') →
      ∃ i : Img, resp.image = image_to_base64 i ∧ resp.width = i.width ∧
        resp.height = i.height ∧ resp.format = "png") := by
  refine ⟨?_, ?_, ?_, ?_⟩
  · intro img hw hh
    obtain ⟨img', hdec, hwid, hhei⟩ := pngDecode_pngEncode img hw hh
    refine ⟨img', ?_, hwid, hhei⟩
    unfold base64_to_image image_to_base64
    rw [show (String.mk (b64encode (pngEncode img))).data
      = b64encode (pngEncode img) from rfl]
    rw [b64decode_b64encode _ (pngEncode_bytes_lt img)]
    dsimp only
    rw [hdec]
  · intro ext st req resp st' h
    unfold controlnet_preprocess at h
    split at h
    · simp at h
    · simp at h
    · split at h
      · simp at h
      · simp at h
      · rename_i cimg hpre
        injection h with h1 h2
        injection h1 with hr
        exact ⟨cimg, by rw [← hr], by rw [← hr], by rw [← hr], by rw [← hr]⟩
  · intro ext st req resp st' h
    unfold controlnet_generate at h
    split at h
    · simp at h
    · simp at h
    · split at h
      · simp at h
      · simp at h
      · rename_i rimg hgen
        injection h with h1 h2
        injection h1 with hr
        exact ⟨rimg, by rw [← hr], by rw [← hr], by rw [← hr], by rw [← hr]⟩
  · intro ext st req resp st' h
    unfold text_to_image at h
    split at h
    · simp at h
    · split at h
      · simp at h
      · split at h
        · simp at h
        · rename_i i hex
          injection h with h1 h2
          injection h1 with hr
          exact ⟨i, by rw [← hr], by rw [← hr], by rw [← hr], by rw [← hr]⟩

/-- Witness for C8: a 1×1 grayscale image through the round trip and all
three endpoints against the all-successful external run. -/
theorem png_base64_responses_witness :
    (∃ img', base64_to_image (image_to_base64 (Img.gray [[5]])) = .ok img' ∧
      img'.width = (Img.gray [[5]]).width ∧
      img'.height = (Img.gray [[5]]).height) ∧
    (∃ i : Img,
      (⟨image_to_base64 (Img.gray [[250]]), 1, 1, "png"⟩ : ImageResponse).image
        = image_to_base64 i ∧
      (⟨image_to_base64 (Img.gray [[250]]), 1, 1, "png"⟩ : ImageResponse).width
        = i.width ∧
      (⟨image_to_base64 (Img.gray [[250]]), 1, 1, "png"⟩ : ImageResponse).height
        = i.height ∧
      (⟨image_to_base64 (Img.gray [[250]]), 1, 1, "png"⟩ : ImageResponse).format
        = "png") ∧
    (∃ i : Img,
      (⟨image_to_base64 (Img.gray [[0]]), 1, 1, "png"⟩ : ImageResponse).image
        = image_to_base64 i ∧
      (⟨image_to_base64 (Img.gray [[0]]), 1, 1, "png"⟩ : ImageResponse).width
        = i.width ∧
      (⟨image_to_base64 (Img.gray [[0]]), 1, 1, "png"⟩ : ImageResponse).height
        = i.height ∧
      (⟨image_to_base64 (Img.gray [[0]]), 1, 1, "png"⟩ : ImageResponse).format
        = "png") :=
  ⟨png_base64_responses.1 (Img.gray [[5]]) (by decide) (by decide),
    png_base64_responses.2.1 extOk initialState
      ⟨image_to_base64 (Img.gray [[5]]), "scribble"⟩
      ⟨image_to_base64 (Img.gray [[250]]), 1, 1, "png"⟩ initialState (by decide),
    png_base64_responses.2.2.2 extOk initialState
      ⟨"m", "p", none, none, 50, 7.5, none, none⟩
      ⟨image_to_base64 (Img.gray [[0]]), 1, 1, "png"⟩
      ⟨[("m", ⟨Family.sd15, "m"⟩)], [], [], []⟩ (by decide)⟩

/-- Inverting a byte row twice is the identity. -/
theorem inv_inv_row (r : List Nat) (hb : ∀ v ∈ r, v ≤ 255) :
    (r.map (fun v => 255 - v)).map (fun v => 255 - v) = r := by
  induction r with
  | nil => rfl
  | cons v vs ih =>
    simp only [List.map_cons, List.cons.injEq]
    constructor
    · have := hb v (by simp)
      omega
    · exact ih (fun x hx => hb x (by simp [hx]))

/-- Inverting a byte raster twice is the identity. -/
theorem inv_inv_rows : ∀ rows : List (List Nat),
    (∀ r ∈ rows, ∀ v ∈ r, v ≤ 255) →
    (rows.map (fun row => row.map (fun v => 255 - v))).map
      (fun row => row.map (fun v => 255 - v)) = rows
  | [], _ => rfl
  | r :: rs, hb => by
    simp only [List.map_cons, List.cons.injEq]
    exact ⟨inv_inv_row r (hb r (by simp)),
      inv_inv_rows rs (fun r' hr' v hv => hb r' (by simp [hr']) v hv)⟩

/-- C10: `preprocess` with type scribble returns, for every external
behaviour and every state, the inverted grayscale of the input with the
state (hence the preprocessor cache) untouched; the result keeps the
input's width and height and is exactly the pointwise `255 - grayscale`
raster; on an in-range grayscale image the transform is an involution. -/
theorem scribble_preprocess_spec :
    (∀ (ext : ExtLib) (st : ServerState) (img : Img),
      preprocess ext st img "scribble" = (st, .ok (scribblePreprocess img))) ∧
    (∀ img : Img, (scribblePreprocess img).width = img.width ∧
      (scribblePreprocess img).height = img.height) ∧
    (∀ img : Img, scribblePreprocess img
      = Img.gray ((convertL img).map (fun row => row.map (fun v => 255 - v)))) ∧
    (∀ rows : List (List Nat), (∀ r ∈ rows, ∀ v ∈ r, v ≤ 255) →
      scribblePreprocess (scribblePreprocess (Img.gray rows))
        = Img.gray rows) := by
  refine ⟨fun ext st img => rfl, ?_, fun img => rfl, ?_⟩
  · intro img
    cases img with
    | gray rows =>
      constructor
      · cases rows with
        | nil => rfl
        | cons r rs => simp [scribblePreprocess, convertL, Img.width]
      · simp [scribblePreprocess, convertL, Img.height]
    | rgb rows =>
      constructor
      · cases rows with
        | nil => rfl
        | cons r rs => simp [scribblePreprocess, convertL, Img.width]
      · simp [scribblePreprocess, convertL, Img.height]
  · intro rows hb
    simp only [scribblePreprocess, convertL]
    rw [inv_inv_rows rows hb]

/-- Witness for C10: the scribble path on a concrete two-pixel image. -/
theorem scribble_preprocess_spec_witness :
    preprocess extOk initialState (Img.gray [[7, 200]]) "scribble"
      = (initialState, .ok (scribblePreprocess (Img.gray [[7, 200]]))) ∧
    scribblePreprocess (scribblePreprocess (Img.gray [[7, 200]]))
      = Img.gray [[7, 200]] :=
  ⟨scribble_preprocess_spec.1 extOk initialState (Img.gray [[7, 200]]),
    scribble_preprocess_spec.2.2.2 [[7, 200]] (by decide)⟩
